import Mathlib

/-!
A shallow embedding of the trap-entry and system-call dispatch core of the
seL4 kernel (file `src/api/syscall.c`, scheduling-budget variant), together
with proofs of trace properties of the entry points.

Each kernel handler is embedded as a Lean function from an environment
`Env` — the values returned by the external collaborators it consults
(budget gate, capability lookups, invocation decoder, notification binding
state) — to the sequence of effectful collaborator calls it performs (an
`Event` trace), plus its `exception_t` result and whether it reached a
fatal `fail` abort.  Debug-only and benchmark-only sections (the
`ifdef DEBUG` and `CONFIG_MAX_NUM_TRACE_POINTS` blocks) are compiled out,
as in a production build, and `assert` is a no-op (release semantics);
`fail(...)` is unconditional and is modelled as an abort flag.
-/

/-- Thread state tags (`thread_state_t`, field `tsType`). -/
inductive ThreadState
  | Running
  | Restart
  | Inactive
  | BlockedOnReceive
  | BlockedOnSend
  | BlockedOnReply
  | BlockedOnNotification
  | IdleThreadState
  deriving DecidableEq

/-- Kernel exception results (`exception_t`). -/
inductive Exc
  | none
  | fault
  | lookupFault
  | syscallError
  | preempted
  deriving DecidableEq

/-- Capabilities, restricted to the fields this dispatch core reads:
the type tag (`cap_get_capType`), an endpoint's `capCanReceive` right, a
notification's `capNtfnCanReceive` right and `capNtfnPtr`, and a reply
cap's `capReplyMaster` flag and `capTCBPtr`.  `other` stands for every
remaining capability type (the `default` arms of the switches). -/
inductive Cap
  | null
  | endpoint (canReceive : Bool) (canSend : Bool) (canGrant : Bool) (epPtr : Nat)
  | notification (canReceive : Bool) (canSend : Bool) (ntfnPtr : Nat)
  | reply (master : Bool) (tcbPtr : Nat)
  | thread (tcbPtr : Nat)
  | other
  deriving DecidableEq

/-- Fault records (`fault_t` constructors used in this file). -/
inductive Fault
  | unknownSyscall (w : Nat)
  | userException (number code : Nat)
  | capFault (cptr : Nat) (inReceivePhase : Bool)
  deriving DecidableEq

/-- One effectful collaborator call performed during a kernel entry.
Read-only queries (register reads, capability lookups, `checkBudget`,
`getActiveIRQ`, `ready`) are not events: their results are inputs,
supplied by `Env`. -/
inductive Event
  | updateTimestamp
  | handleInterrupt (irq : Nat)
  | printfSpurious
  | handleSpuriousIRQ
  | setCurrentFault (f : Fault)
  | setCurrentLookupFaultMissingCap
  | handleFault (tcb : Nat)
  | setThreadState (tcb : Nat) (ts : ThreadState)
  | handleVMFault (tcb : Nat) (faultType : Nat)
  | decodeInvocation (label length : Nat) (cap : Cap) (isBlocking isCall : Bool)
  | replyFromKernel_error (tcb : Nat)
  | replyFromKernel_success_empty (tcb : Nat)
  | doReplyTransfer (sender receiver : Nat)
  | deleteCallerCap (tcb : Nat)
  | receiveIPC (tcb : Nat) (blocking : Bool)
  | receiveSignal (tcb : Nat) (blocking : Bool)
  | recharge (scOfTcb : Nat)
  | tcbSchedAppend (tcb : Nat)
  | postpone (scOfTcb : Nat)
  | ksConsumedSetZero
  | rescheduleRequired
  | schedule
  | activateThread
  | userError
  deriving DecidableEq

/-- The eight system-call opcodes of the `syscall_t` enumeration, plus
`SysUnknown` standing for any other value reaching `handleSyscall`
(the `default: fail("Invalid syscall")` arm of the switch). -/
inductive Syscall
  | SysSend
  | SysNBSend
  | SysCall
  | SysRecv
  | SysReply
  | SysReplyRecv
  | SysNBRecv
  | SysYield
  | SysUnknown
  deriving DecidableEq

/-- The results the external collaborators return during one kernel entry.
Each field corresponds to one read the C code performs: `checkBudget`'s
boolean, `getActiveIRQ` (`Option.none` is `irqInvalid`), the capability
register and message-info register of the current thread, the outcomes of
`lookupCapAndSlot` / `lookupCap` / `lookupIPCBuffer` / `lookupExtraCaps`,
`decodeInvocation`'s status and the thread state it leaves behind
(`thread_state_get_tsType(thread->tcbState)` read after the decode), the
cap in the current thread's caller slot, the `ntfnBoundTCB` field of each
notification object, `ready(ksCurThread)`, and `handleVMFault`'s status. -/
structure Env where
  curThread : Nat
  checkBudget : Bool
  activeIRQ : Option Nat
  capRegister : Nat
  msgLabel : Nat
  msgLength : Nat
  luSlotStatus : Exc
  luSlotCap : Cap
  luCapStatus : Exc
  luCapCap : Cap
  ipcBufferPresent : Bool
  extraCapsStatus : Exc
  decodeStatus : Exc
  stateAfterDecode : ThreadState
  callerCap : Cap
  ntfnBoundTCB : Nat → Option Nat
  readyCur : Bool
  vmFaultStatus : Exc

/-- Result of a `void` kernel handler: its event trace and whether it
reached a fatal `fail`. -/
structure VRes where
  events : List Event
  aborted : Bool
  deriving DecidableEq

/-- Result of an `exception_t`-returning kernel handler. -/
structure XRes where
  events : List Event
  status : Exc
  aborted : Bool
  deriving DecidableEq

/-- `n_msgRegisters`: number of message words carried in registers. -/
def n_msgRegisters : Nat := 4

/-- `handleInterruptEntry`: fetch the active IRQ; if valid hand it to
`handleInterrupt`, otherwise log and call `handleSpuriousIRQ`; then
`schedule()` and `activateThread()`. -/
def handleInterruptEntry (env : Env) : XRes :=
  let body : List Event :=
    match env.activeIRQ with
    | Option.some irq => [Event.handleInterrupt irq]
    | Option.none => [Event.printfSpurious, Event.handleSpuriousIRQ]
  ⟨body ++ [Event.schedule, Event.activateThread], Exc.none, false⟩

/-- `handleUnknownSyscall` (production build: the debug and benchmark
branches are compiled out): `updateTimestamp()`; if `checkBudget()` raise
an unknown-syscall fault on the current thread, else mark it Restart;
then `schedule()` and `activateThread()`. -/
def handleUnknownSyscall (env : Env) (w : Nat) : XRes :=
  let body : List Event :=
    if env.checkBudget then
      [Event.setCurrentFault (Fault.unknownSyscall w), Event.handleFault env.curThread]
    else
      [Event.setThreadState env.curThread ThreadState.Restart]
  ⟨Event.updateTimestamp :: body ++ [Event.schedule, Event.activateThread], Exc.none, false⟩

/-- `handleUserLevelFault`: same budget-gated shape with a user-exception
fault built from the two machine words. -/
def handleUserLevelFault (env : Env) (w_a w_b : Nat) : XRes :=
  let body : List Event :=
    if env.checkBudget then
      [Event.setCurrentFault (Fault.userException w_a w_b), Event.handleFault env.curThread]
    else
      [Event.setThreadState env.curThread ThreadState.Restart]
  ⟨Event.updateTimestamp :: body ++ [Event.schedule, Event.activateThread], Exc.none, false⟩

/-- `handleVMFaultEvent`: budget-gated call to `handleVMFault`; on a
non-`EXCEPTION_NONE` status, deliver the fault. -/
def handleVMFaultEvent (env : Env) (vm_faultType : Nat) : XRes :=
  let body : List Event :=
    if env.checkBudget then
      Event.handleVMFault env.curThread vm_faultType ::
        (if env.vmFaultStatus ≠ Exc.none then [Event.handleFault env.curThread] else [])
    else
      [Event.setThreadState env.curThread ThreadState.Restart]
  ⟨Event.updateTimestamp :: body ++ [Event.schedule, Event.activateThread], Exc.none, false⟩

/-- `handleInvocation`: look up the invoked capability; on lookup failure
construct a cap fault and deliver it only when `isBlocking`.  Then resolve
extra caps (same failure rule), clamp the message length when no IPC
buffer is mapped, and run `decodeInvocation`.  Preemption propagates
immediately; a syscall error is replied to only for calls; on success a
still-Restart thread is replied to (calls only) and set Running. -/
def handleInvocation (env : Env) (isCall isBlocking : Bool) : XRes :=
  let thread := env.curThread
  let cptr := env.capRegister
  if env.luSlotStatus ≠ Exc.none then
    ⟨[Event.userError, Event.setCurrentFault (Fault.capFault cptr false)] ++
       (if isBlocking then [Event.handleFault thread] else []), Exc.none, false⟩
  else if env.extraCapsStatus ≠ Exc.none then
    ⟨[Event.userError] ++ (if isBlocking then [Event.handleFault thread] else []),
       Exc.none, false⟩
  else
    let length := if env.msgLength > n_msgRegisters && !env.ipcBufferPresent then
        n_msgRegisters
      else env.msgLength
    let dec := [Event.decodeInvocation env.msgLabel length env.luSlotCap isBlocking isCall]
    if env.decodeStatus = Exc.preempted then
      ⟨dec, Exc.preempted, false⟩
    else if env.decodeStatus = Exc.syscallError then
      ⟨dec ++ (if isCall then [Event.replyFromKernel_error thread] else []), Exc.none, false⟩
    else if env.stateAfterDecode = ThreadState.Restart then
      ⟨dec ++ (if isCall then [Event.replyFromKernel_success_empty thread] else []) ++
         [Event.setThreadState thread ThreadState.Running], Exc.none, false⟩
    else
      ⟨dec, Exc.none, false⟩

/-- `handleReply`: switch on the cap in the current thread's caller slot.
A non-master reply cap performs `doReplyTransfer` to the named caller
(the `assert(caller != ksCurThread)` is compiled out in release builds);
a master reply cap `break`s out of its case and so falls through, like
the `default` arm, to `fail("handleReply: invalid caller cap")`; a null
cap logs a user error and returns. -/
def handleReply (env : Env) : VRes :=
  match env.callerCap with
  | Cap.reply master tcbPtr =>
    if master then
      ⟨[], true⟩
    else
      ⟨[Event.doReplyTransfer env.curThread tcbPtr], false⟩
  | Cap.null => ⟨[Event.userError], false⟩
  | _ => ⟨[], true⟩

/-- `handleRecv`: look up the cap in the capability register; a lookup
failure raises a cap fault.  An endpoint cap with receive rights first
runs `deleteCallerCap` and then `receiveIPC`; an endpoint without receive
rights, a notification without receive rights or bound to another thread,
and every other cap type set a missing-capability lookup fault and a cap
fault and deliver it. -/
def handleRecv (env : Env) (isBlocking : Bool) : VRes :=
  let epCPtr := env.capRegister
  if env.luCapStatus ≠ Exc.none then
    ⟨[Event.setCurrentFault (Fault.capFault epCPtr true), Event.handleFault env.curThread],
      false⟩
  else
    match env.luCapCap with
    | Cap.endpoint canReceive _ _ _ =>
      if !canReceive then
        ⟨[Event.setCurrentLookupFaultMissingCap,
           Event.setCurrentFault (Fault.capFault epCPtr true),
           Event.handleFault env.curThread], false⟩
      else
        ⟨[Event.deleteCallerCap env.curThread,
           Event.receiveIPC env.curThread isBlocking], false⟩
    | Cap.notification canReceive _ ntfnPtr =>
      let boundTCB := env.ntfnBoundTCB ntfnPtr
      if !canReceive ||
          (match boundTCB with
           | Option.some t => t ≠ env.curThread
           | Option.none => false) then
        ⟨[Event.setCurrentLookupFaultMissingCap,
           Event.setCurrentFault (Fault.capFault epCPtr true),
           Event.handleFault env.curThread], false⟩
      else
        ⟨[Event.receiveSignal env.curThread isBlocking], false⟩
    | _ =>
      ⟨[Event.setCurrentLookupFaultMissingCap,
         Event.setCurrentFault (Fault.capFault epCPtr true),
         Event.handleFault env.curThread], false⟩

/-- `handleYield`: if `ready(ksCurThread)`, recharge its scheduling
context and append the thread to its round-robin queue, otherwise
postpone the scheduling context; then zero `ksConsumed` and call
`rescheduleRequired()`.  The debug `assert` on `tcbQueued` is compiled
out in release builds. -/
def handleYield (env : Env) : VRes :=
  let acts : List Event :=
    if env.readyCur then
      [Event.recharge env.curThread, Event.tcbSchedAppend env.curThread]
    else
      [Event.postpone env.curThread]
  ⟨acts ++ [Event.ksConsumedSetZero, Event.rescheduleRequired], false⟩

/-- The opcode switch of `handleSyscall`, as one function: the `ret`
variable is `Exc.none` unless a `handleInvocation` case assigns it.
`SysUnknown` is the `default: fail("Invalid syscall")` arm. -/
def handleSyscallBody (env : Env) (syscall : Syscall) : XRes :=
  match syscall with
  | Syscall.SysSend => handleInvocation env false true
  | Syscall.SysNBSend => handleInvocation env false false
  | Syscall.SysCall => handleInvocation env true true
  | Syscall.SysRecv =>
    let v := handleRecv env true
    ⟨v.events, Exc.none, v.aborted⟩
  | Syscall.SysReply =>
    let v := handleReply env
    ⟨v.events, Exc.none, v.aborted⟩
  | Syscall.SysReplyRecv =>
    let v1 := handleReply env
    if v1.aborted then
      ⟨v1.events, Exc.none, true⟩
    else
      let v2 := handleRecv env true
      ⟨v1.events ++ v2.events, Exc.none, v2.aborted⟩
  | Syscall.SysNBRecv =>
    let v := handleRecv env false
    ⟨v.events, Exc.none, v.aborted⟩
  | Syscall.SysYield =>
    let v := handleYield env
    ⟨v.events, Exc.none, v.aborted⟩
  | Syscall.SysUnknown => ⟨[], Exc.none, true⟩

/-- The post-switch interrupt drain of `handleSyscall`: fetch the active
IRQ and call `handleInterrupt` on it only when one is active. -/
def irqDrainEvents (env : Env) : List Event :=
  match env.activeIRQ with
  | Option.some irq => [Event.handleInterrupt irq]
  | Option.none => []

/-- `handleSyscall`: `updateTimestamp()`, then the budget gate.  With
budget, run the opcode switch; if it signalled `EXCEPTION_PREEMPTED`,
drain one pending interrupt.  Without budget, mark the current thread
Restart.  Both sides fall through to `schedule()`;`activateThread()`;
a `fail` inside the switch aborts instead. -/
def handleSyscall (env : Env) (syscall : Syscall) : XRes :=
  if env.checkBudget then
    let r := handleSyscallBody env syscall
    if r.aborted then
      ⟨Event.updateTimestamp :: r.events, r.status, true⟩
    else
      ⟨Event.updateTimestamp :: r.events ++
         (if r.status = Exc.preempted then irqDrainEvents env else []) ++
         [Event.schedule, Event.activateThread], Exc.none, false⟩
  else
    ⟨[Event.updateTimestamp, Event.setThreadState env.curThread ThreadState.Restart,
       Event.schedule, Event.activateThread], Exc.none, false⟩

/-- Number of occurrences of an event in a trace. -/
def countEv (e : Event) : List Event → Nat
  | [] => 0
  | x :: xs => (if x = e then 1 else 0) + countEv e xs

/-- A trace that ends with `schedule` immediately followed by
`activateThread`, neither occurring earlier. -/
def endsSA (l : List Event) : Prop :=
  ∃ p, l = p ++ [Event.schedule, Event.activateThread] ∧
    countEv Event.schedule p = 0 ∧ countEv Event.activateThread p = 0

/-- A trace containing neither `schedule` nor `activateThread`. -/
def noSA (l : List Event) : Prop :=
  countEv Event.schedule l = 0 ∧ countEv Event.activateThread l = 0

/-- A concrete collaborator environment, used to evaluate the handlers on
explicit inputs. -/
def envBase : Env where
  curThread := 1
  checkBudget := true
  activeIRQ := Option.none
  capRegister := 10
  msgLabel := 0
  msgLength := 2
  luSlotStatus := Exc.none
  luSlotCap := Cap.endpoint true true true 5
  luCapStatus := Exc.none
  luCapCap := Cap.endpoint true true true 5
  ipcBufferPresent := true
  extraCapsStatus := Exc.none
  decodeStatus := Exc.none
  stateAfterDecode := ThreadState.Restart
  callerCap := Cap.reply false 2
  ntfnBoundTCB := fun _ => Option.none
  readyCur := true
  vmFaultStatus := Exc.none

/-- The complete trace of a budget-refused kernel entry: timestamp
update, marking the current thread Restart, scheduling, activation. -/
def restartEntryTrace (env : Env) : List Event :=
  [Event.updateTimestamp, Event.setThreadState env.curThread ThreadState.Restart,
    Event.schedule, Event.activateThread]

/-- The trace of a denied receive in `handleRecv`: set the
missing-capability lookup fault, construct a capability fault on the
looked-up cptr (receive phase), deliver it to the calling thread. -/
def recvFaultTrace (env : Env) : List Event :=
  [Event.setCurrentLookupFaultMissingCap,
    Event.setCurrentFault (Fault.capFault env.capRegister true),
    Event.handleFault env.curThread]

theorem countEv_append (e : Event) (l₁ l₂ : List Event) :
    countEv e (l₁ ++ l₂) = countEv e l₁ + countEv e l₂ := by
  induction l₁ with
  | nil => simp [countEv]
  | cons x xs ih => simp [countEv, ih, Nat.add_assoc]


theorem noSA_handleInvocation (env : Env) (isCall isBlocking : Bool) :
    noSA (handleInvocation env isCall isBlocking).events := by
  simp only [handleInvocation, noSA]
  split_ifs <;> simp [countEv, countEv_append]

theorem noSA_handleReply (env : Env) : noSA (handleReply env).events := by
  unfold handleReply noSA
  cases env.callerCap with
  | reply m p =>
    dsimp only
    split_ifs <;> simp [countEv]
  | null => simp [countEv]
  | endpoint cr cs cg e => simp [countEv]
  | notification cr cs np => simp [countEv]
  | thread p => simp [countEv]
  | other => simp [countEv]

theorem noSA_handleRecv (env : Env) (isBlocking : Bool) :
    noSA (handleRecv env isBlocking).events := by
  unfold handleRecv noSA
  split_ifs with h
  · simp [countEv]
  · cases env.luCapCap with
    | endpoint cr cs cg p =>
      dsimp only
      split_ifs <;> simp [countEv]
    | notification cr cs np =>
      dsimp only
      cases hnb : env.ntfnBoundTCB np <;> simp only [hnb] <;> split_ifs <;> simp [countEv]
    | null => simp [countEv]
    | reply m p => simp [countEv]
    | thread p => simp [countEv]
    | other => simp [countEv]

theorem noSA_handleYield (env : Env) : noSA (handleYield env).events := by
  unfold handleYield noSA
  split_ifs <;> simp [countEv, countEv_append]

theorem noSA_handleSyscallBody (env : Env) (sc : Syscall) :
    noSA (handleSyscallBody env sc).events := by
  cases sc
  case SysSend => exact noSA_handleInvocation env false true
  case SysNBSend => exact noSA_handleInvocation env false false
  case SysCall => exact noSA_handleInvocation env true true
  case SysRecv => exact noSA_handleRecv env true
  case SysReply => exact noSA_handleReply env
  case SysNBRecv => exact noSA_handleRecv env false
  case SysYield => exact noSA_handleYield env
  case SysUnknown => simp [handleSyscallBody, noSA, countEv]
  case SysReplyRecv =>
    simp only [handleSyscallBody]
    split_ifs
    · exact noSA_handleReply env
    · have h1 := noSA_handleReply env
      have h2 := noSA_handleRecv env true
      simp only [noSA, countEv_append] at h1 h2 ⊢
      omega

theorem noSA_irqDrainEvents (env : Env) : noSA (irqDrainEvents env) := by
  unfold irqDrainEvents noSA
  cases env.activeIRQ <;> simp [countEv]

theorem endsSA_build (p : List Event) (h1 : countEv Event.schedule p = 0)
    (h2 : countEv Event.activateThread p = 0) :
    endsSA (p ++ [Event.schedule, Event.activateThread]) :=
  ⟨p, rfl, h1, h2⟩

/-- Claim C1 counterexample: with a master reply capability in the caller
slot, `handleReply` performs no transfer and no state change, but it does
not return normally: the `break` in the reply-cap case falls through to
`fail("handleReply: invalid caller cap")` and the kernel aborts, refuting
the claimed no-op. -/
theorem C1_counterexample :
    (handleReply { envBase with callerCap := Cap.reply true 7 }).events = [] ∧
    (handleReply { envBase with callerCap := Cap.reply true 7 }).aborted = true := by
  constructor <;> rfl

/-- Claim C1 (amended): whenever the calling thread's caller slot holds a
reply capability whose master flag is set, `handleReply` performs no
reply transfer, no thread-state change and no other collaborator call,
but it aborts the kernel: the master case `break`s out of the switch into
`fail("handleReply: invalid caller cap")`. -/
theorem C1_master_reply_aborts (env : Env) (p : Nat)
    (h : env.callerCap = Cap.reply true p) :
    handleReply env = ⟨[], true⟩ := by
  simp [handleReply, h]

/-- Claim C1 witness: the amended theorem evaluated at a concrete
environment whose caller slot holds a master reply capability. -/
theorem C1_witness :
    ({ envBase with callerCap := Cap.reply true 7 } : Env).callerCap = Cap.reply true 7 ∧
    handleReply { envBase with callerCap := Cap.reply true 7 } = ⟨[], true⟩ :=
  ⟨rfl, C1_master_reply_aborts _ 7 rfl⟩

/-- Claim C2: on every budget-gated kernel entry — `handleSyscall` with
any opcode, `handleUnknownSyscall`, `handleUserLevelFault`,
`handleVMFaultEvent` — a false `checkBudget()` performs none of the
requested privileged work: the complete trace is the timestamp update,
setting the calling thread's state to Restart, then `schedule()` and
`activateThread()`, and the entry completes normally with
`EXCEPTION_NONE`. -/
theorem C2_insufficient_budget_restarts (env : Env) (sc : Syscall)
    (w w_a w_b vft : Nat) (h : env.checkBudget = false) :
    handleSyscall env sc = ⟨restartEntryTrace env, Exc.none, false⟩ ∧
    handleUnknownSyscall env w = ⟨restartEntryTrace env, Exc.none, false⟩ ∧
    handleUserLevelFault env w_a w_b = ⟨restartEntryTrace env, Exc.none, false⟩ ∧
    handleVMFaultEvent env vft = ⟨restartEntryTrace env, Exc.none, false⟩ := by
  refine ⟨?_, ?_, ?_, ?_⟩ <;>
    simp [handleSyscall, handleUnknownSyscall, handleUserLevelFault,
      handleVMFaultEvent, restartEntryTrace, h]

/-- Claim C2 witness: the theorem evaluated at a concrete environment
with insufficient budget, on the `SysCall` opcode. -/
theorem C2_witness :
    ({ envBase with checkBudget := false } : Env).checkBudget = false ∧
    handleSyscall { envBase with checkBudget := false } Syscall.SysCall =
      ⟨restartEntryTrace { envBase with checkBudget := false }, Exc.none, false⟩ :=
  ⟨rfl, (C2_insufficient_budget_restarts _ Syscall.SysCall 0 0 0 0 rfl).1⟩

/-- Claim C7: `handleYield` recharges the scheduling context and appends
the calling thread at the tail of its run queue when the thread is ready,
postpones the scheduling context otherwise, and in both cases zeroes the
consumed-time counter and requests a reschedule exactly once. -/
theorem C7_yield_accounting (env : Env) :
    (env.readyCur = true →
      handleYield env = ⟨[Event.recharge env.curThread, Event.tcbSchedAppend env.curThread,
        Event.ksConsumedSetZero, Event.rescheduleRequired], false⟩) ∧
    (env.readyCur = false →
      handleYield env = ⟨[Event.postpone env.curThread,
        Event.ksConsumedSetZero, Event.rescheduleRequired], false⟩) ∧
    countEv Event.ksConsumedSetZero (handleYield env).events = 1 ∧
    countEv Event.rescheduleRequired (handleYield env).events = 1 := by
  refine ⟨fun h => ?_, fun h => ?_, ?_, ?_⟩
  · simp [handleYield, h]
  · simp [handleYield, h]
  · unfold handleYield
    split_ifs <;> simp [countEv]
  · unfold handleYield
    split_ifs <;> simp [countEv]

/-- Claim C7 witness: the ready branch evaluated at a concrete
environment. -/
theorem C7_witness :
    envBase.readyCur = true ∧
    handleYield envBase = ⟨[Event.recharge 1, Event.tcbSchedAppend 1,
      Event.ksConsumedSetZero, Event.rescheduleRequired], false⟩ :=
  ⟨rfl, (C7_yield_accounting envBase).1 rfl⟩

/-- Claim C10: for every opcode value, including `SysUnknown` (a value
outside the defined operations), a false `checkBudget()` means the opcode
switch — and with it the fatal `fail("Invalid syscall")` arm — is never
reached: no decode happens, the thread is merely marked Restart, and the
entry completes through `schedule()` and `activateThread()` without
aborting. -/
theorem C10_no_abort_without_budget (env : Env) (sc : Syscall)
    (h : env.checkBudget = false) :
    handleSyscall env sc = ⟨restartEntryTrace env, Exc.none, false⟩ ∧
    (handleSyscall env sc).aborted = false ∧
    (∀ lbl len cap ib ic,
      Event.decodeInvocation lbl len cap ib ic ∉ (handleSyscall env sc).events) := by
  have he : handleSyscall env sc = ⟨restartEntryTrace env, Exc.none, false⟩ := by
    simp [handleSyscall, restartEntryTrace, h]
  refine ⟨he, ?_, ?_⟩
  · rw [he]
  · intro lbl len cap ib ic
    rw [he]
    simp [restartEntryTrace]

/-- Claim C10 witness: the theorem evaluated with insufficient budget on
an opcode outside the defined operations. -/
theorem C10_witness :
    ({ envBase with checkBudget := false } : Env).checkBudget = false ∧
    handleSyscall { envBase with checkBudget := false } Syscall.SysUnknown =
      ⟨restartEntryTrace { envBase with checkBudget := false }, Exc.none, false⟩ :=
  ⟨rfl, (C10_no_abort_without_budget _ Syscall.SysUnknown rfl).1⟩

/-- Claim C4: every trap-class entry point executes exactly one handling
path and invokes `schedule()` followed directly by `activateThread()`
before returning: `handleInterruptEntry` takes the valid-IRQ path or the
spurious path and nothing else; the unknown-syscall, user-fault and
VM-fault entries never abort and end in the scheduler pair; and every
`handleSyscall` run that returns (does not hit the fatal `fail`) ends in
the scheduler pair, with neither `schedule` nor `activateThread`
occurring earlier in the entry. -/
theorem C4_one_path_then_schedule_activate (env : Env) (w w_a w_b vft : Nat)
    (sc : Syscall) :
    (handleInterruptEntry env =
      ⟨(match env.activeIRQ with
         | Option.some irq => [Event.handleInterrupt irq]
         | Option.none => [Event.printfSpurious, Event.handleSpuriousIRQ]) ++
        [Event.schedule, Event.activateThread], Exc.none, false⟩) ∧
    endsSA (handleInterruptEntry env).events ∧
    ((handleUnknownSyscall env w).aborted = false ∧
      endsSA (handleUnknownSyscall env w).events) ∧
    ((handleUserLevelFault env w_a w_b).aborted = false ∧
      endsSA (handleUserLevelFault env w_a w_b).events) ∧
    ((handleVMFaultEvent env vft).aborted = false ∧
      endsSA (handleVMFaultEvent env vft).events) ∧
    ((handleSyscall env sc).aborted = false → endsSA (handleSyscall env sc).events) := by
  have hIE : endsSA (handleInterruptEntry env).events := by
    cases h : env.activeIRQ with
    | some irq =>
      exact ⟨[Event.handleInterrupt irq], by simp [handleInterruptEntry, h],
        by simp [countEv], by simp [countEv]⟩
    | none =>
      exact ⟨[Event.printfSpurious, Event.handleSpuriousIRQ],
        by simp [handleInterruptEntry, h], by simp [countEv], by simp [countEv]⟩
  have hUS : endsSA (handleUnknownSyscall env w).events := by
    by_cases h : env.checkBudget
    · exact ⟨[Event.updateTimestamp, Event.setCurrentFault (Fault.unknownSyscall w),
        Event.handleFault env.curThread],
        by simp [handleUnknownSyscall, h], by simp [countEv], by simp [countEv]⟩
    · exact ⟨[Event.updateTimestamp, Event.setThreadState env.curThread ThreadState.Restart],
        by simp [handleUnknownSyscall, h], by simp [countEv], by simp [countEv]⟩
  have hULF : endsSA (handleUserLevelFault env w_a w_b).events := by
    by_cases h : env.checkBudget
    · exact ⟨[Event.updateTimestamp, Event.setCurrentFault (Fault.userException w_a w_b),
        Event.handleFault env.curThread],
        by simp [handleUserLevelFault, h], by simp [countEv], by simp [countEv]⟩
    · exact ⟨[Event.updateTimestamp, Event.setThreadState env.curThread ThreadState.Restart],
        by simp [handleUserLevelFault, h], by simp [countEv], by simp [countEv]⟩
  have hVF : endsSA (handleVMFaultEvent env vft).events := by
    by_cases h : env.checkBudget
    · by_cases h2 : env.vmFaultStatus = Exc.none
      · exact ⟨[Event.updateTimestamp, Event.handleVMFault env.curThread vft],
          by simp [handleVMFaultEvent, h, h2], by simp [countEv], by simp [countEv]⟩
      · exact ⟨[Event.updateTimestamp, Event.handleVMFault env.curThread vft,
          Event.handleFault env.curThread],
          by simp [handleVMFaultEvent, h, h2], by simp [countEv], by simp [countEv]⟩
    · exact ⟨[Event.updateTimestamp, Event.setThreadState env.curThread ThreadState.Restart],
        by simp [handleVMFaultEvent, h], by simp [countEv], by simp [countEv]⟩
  have hSC : (handleSyscall env sc).aborted = false →
      endsSA (handleSyscall env sc).events := by
    intro hab
    by_cases h : env.checkBudget
    · have hb := noSA_handleSyscallBody env sc
      have hd := noSA_irqDrainEvents env
      by_cases ha : (handleSyscallBody env sc).aborted = true
      · exfalso
        simp [handleSyscall, h, ha] at hab
      · refine ⟨Event.updateTimestamp :: (handleSyscallBody env sc).events ++
          (if (handleSyscallBody env sc).status = Exc.preempted then
            irqDrainEvents env else []), ?_, ?_, ?_⟩
        · simp [handleSyscall, h, ha]
        · have hb1 := hb.1
          have hd1 := hd.1
          split_ifs <;> simp [countEv, countEv_append, hb1, hd1]
        · have hb2 := hb.2
          have hd2 := hd.2
          split_ifs <;> simp [countEv, countEv_append, hb2, hd2]
    · exact ⟨[Event.updateTimestamp, Event.setThreadState env.curThread ThreadState.Restart],
        by simp [handleSyscall, h], by simp [countEv], by simp [countEv]⟩
  refine ⟨rfl, hIE, ⟨rfl, hUS⟩, ⟨rfl, hULF⟩, ⟨rfl, hVF⟩, hSC⟩

/-- Claim C4 witness: the `handleSyscall` conjunct applied at a concrete
non-aborting input. -/
theorem C4_witness :
    (handleSyscall envBase Syscall.SysYield).aborted = false ∧
    endsSA (handleSyscall envBase Syscall.SysYield).events :=
  ⟨rfl, (C4_one_path_then_schedule_activate envBase 0 0 0 0 Syscall.SysYield).2.2.2.2.2 rfl⟩

theorem handleInvocation_never_aborts (env : Env) (isCall isBlocking : Bool) :
    (handleInvocation env isCall isBlocking).aborted = false := by
  simp only [handleInvocation]
  split_ifs <;> rfl

theorem preempted_only_from_invocation (env : Env) (sc : Syscall)
    (h : (handleSyscallBody env sc).status = Exc.preempted) :
    (handleSyscallBody env sc).aborted = false := by
  cases sc
  case SysSend => exact handleInvocation_never_aborts env false true
  case SysNBSend => exact handleInvocation_never_aborts env false false
  case SysCall => exact handleInvocation_never_aborts env true true
  case SysRecv => simp [handleSyscallBody] at h
  case SysReply => simp [handleSyscallBody] at h
  case SysReplyRecv =>
    simp only [handleSyscallBody] at h
    split_ifs at h
  case SysNBRecv => simp [handleSyscallBody] at h
  case SysYield => simp [handleSyscallBody] at h
  case SysUnknown => simp [handleSyscallBody] at h

/-- Claim C3: when `lookupCapAndSlot` fails in `handleInvocation`, a
capability fault on the invoked cptr is constructed; it is delivered via
`handleFault` exactly when `isBlocking` is set; no reply of any kind is
sent, the invocation decoder is never called, and the function returns
`EXCEPTION_NONE` without aborting. -/
theorem C3_lookup_failure_fault_or_silent (env : Env) (isCall isBlocking : Bool)
    (h : env.luSlotStatus ≠ Exc.none) :
    handleInvocation env isCall isBlocking =
      ⟨[Event.userError, Event.setCurrentFault (Fault.capFault env.capRegister false)] ++
        (if isBlocking then [Event.handleFault env.curThread] else []),
        Exc.none, false⟩ ∧
    (isBlocking = true →
      Event.handleFault env.curThread ∈ (handleInvocation env isCall isBlocking).events) ∧
    (isBlocking = false →
      ∀ t, Event.handleFault t ∉ (handleInvocation env isCall isBlocking).events) ∧
    (∀ t, Event.replyFromKernel_error t ∉ (handleInvocation env isCall isBlocking).events) ∧
    (∀ t, Event.replyFromKernel_success_empty t ∉
      (handleInvocation env isCall isBlocking).events) ∧
    (∀ lbl len cap ib ic, Event.decodeInvocation lbl len cap ib ic ∉
      (handleInvocation env isCall isBlocking).events) := by
  have he : handleInvocation env isCall isBlocking =
      ⟨[Event.userError, Event.setCurrentFault (Fault.capFault env.capRegister false)] ++
        (if isBlocking then [Event.handleFault env.curThread] else []),
        Exc.none, false⟩ := by
    simp [handleInvocation, h]
  refine ⟨he, fun hb => ?_, fun hb => ?_, fun t => ?_, fun t => ?_,
    fun lbl len cap ib ic => ?_⟩
  · rw [he]; simp [hb]
  · rw [he]; simp [hb]
  · rw [he]; cases isBlocking <;> simp
  · rw [he]; cases isBlocking <;> simp
  · rw [he]; cases isBlocking <;> simp

/-- Claim C3 witness: the blocking case evaluated at a concrete
environment whose capability lookup failed. -/
theorem C3_witness :
    ({ envBase with luSlotStatus := Exc.lookupFault } : Env).luSlotStatus ≠ Exc.none ∧
    handleInvocation { envBase with luSlotStatus := Exc.lookupFault } true true =
      ⟨[Event.userError, Event.setCurrentFault (Fault.capFault 10 false),
        Event.handleFault 1], Exc.none, false⟩ :=
  ⟨by decide, by
    have h := (C3_lookup_failure_fault_or_silent
      { envBase with luSlotStatus := Exc.lookupFault } true true (by decide)).1
    simpa using h⟩

/-- Claim C5: in `handleRecv`, after a successful lookup, a notification
capability that lacks receive rights or is bound to a thread other than
the caller, and an endpoint capability that lacks receive rights, each
set the missing-capability lookup fault, construct a capability fault on
the looked-up cptr and deliver it via `handleFault`; neither
`receiveSignal` nor `receiveIPC` occurs on these paths. -/
theorem C5_recv_denied_faults (env : Env) (isBlocking : Bool)
    (h : env.luCapStatus = Exc.none) :
    (∀ cr cs np, env.luCapCap = Cap.notification cr cs np →
      (cr = false ∨ ∃ t, env.ntfnBoundTCB np = Option.some t ∧ t ≠ env.curThread) →
      handleRecv env isBlocking = ⟨recvFaultTrace env, false⟩) ∧
    (∀ cs cg p, env.luCapCap = Cap.endpoint false cs cg p →
      handleRecv env isBlocking = ⟨recvFaultTrace env, false⟩) ∧
    (∀ t b, Event.receiveSignal t b ∉ recvFaultTrace env) ∧
    (∀ t b, Event.receiveIPC t b ∉ recvFaultTrace env) := by
  refine ⟨fun cr cs np hcap hd => ?_, fun cs cg p hcap => ?_,
    fun t b => ?_, fun t b => ?_⟩
  · rcases hd with hcr | ⟨t, hbt, hneq⟩
    · simp [handleRecv, h, hcap, hcr, recvFaultTrace]
    · simp [handleRecv, h, hcap, hbt, hneq, recvFaultTrace]
  · simp [handleRecv, h, hcap, recvFaultTrace]
  · simp [recvFaultTrace]
  · simp [recvFaultTrace]

/-- Claim C5 witness: a notification capability with receive rights but
bound to a different thread, evaluated concretely. -/
theorem C5_witness :
    ({ envBase with
        luCapCap := Cap.notification true true 3
        ntfnBoundTCB := fun _ => Option.some 2 } : Env).luCapStatus = Exc.none ∧
    handleRecv { envBase with
        luCapCap := Cap.notification true true 3
        ntfnBoundTCB := fun _ => Option.some 2 } true =
      ⟨recvFaultTrace { envBase with
          luCapCap := Cap.notification true true 3
          ntfnBoundTCB := fun _ => Option.some 2 }, false⟩ :=
  ⟨rfl, (C5_recv_denied_faults
    { envBase with
        luCapCap := Cap.notification true true 3
        ntfnBoundTCB := fun _ => Option.some 2 } true rfl).1 true true 3 rfl
    (Or.inr ⟨2, rfl, by decide⟩)⟩

/-- Claim C6: an endpoint capability with receive rights makes
`handleRecv` clear the calling thread's caller slot (`deleteCallerCap`)
strictly before starting `receiveIPC`; and on the `SysReplyRecv` opcode
the reply step runs first, so the reply transfer to the prior caller
happens and the caller capability is cleared before the receive begins. -/
theorem C6_caller_cap_cleared_before_receive (env : Env) (isBlocking : Bool)
    (cs cg : Bool) (p t : Nat)
    (h : env.luCapStatus = Exc.none)
    (hcap : env.luCapCap = Cap.endpoint true cs cg p) :
    handleRecv env isBlocking =
      ⟨[Event.deleteCallerCap env.curThread, Event.receiveIPC env.curThread isBlocking],
        false⟩ ∧
    (env.checkBudget = true → env.callerCap = Cap.reply false t →
      handleSyscall env Syscall.SysReplyRecv =
        ⟨[Event.updateTimestamp, Event.doReplyTransfer env.curThread t,
          Event.deleteCallerCap env.curThread, Event.receiveIPC env.curThread true,
          Event.schedule, Event.activateThread], Exc.none, false⟩) := by
  have h1 : handleRecv env isBlocking =
      ⟨[Event.deleteCallerCap env.curThread, Event.receiveIPC env.curThread isBlocking],
        false⟩ := by
    simp [handleRecv, h, hcap]
  have h1t : handleRecv env true =
      ⟨[Event.deleteCallerCap env.curThread, Event.receiveIPC env.curThread true],
        false⟩ := by
    simp [handleRecv, h, hcap]
  refine ⟨h1, fun hb hc => ?_⟩
  have hr : handleReply env = ⟨[Event.doReplyTransfer env.curThread t], false⟩ := by
    simp [handleReply, hc]
  simp [handleSyscall, handleSyscallBody, hb, hr, h1t]

/-- Claim C6 witness: the `SysReplyRecv` ordering evaluated concretely:
reply transfer, then caller-slot deletion, then receive. -/
theorem C6_witness :
    envBase.luCapStatus = Exc.none ∧ envBase.luCapCap = Cap.endpoint true true true 5 ∧
    envBase.checkBudget = true ∧ envBase.callerCap = Cap.reply false 2 ∧
    handleSyscall envBase Syscall.SysReplyRecv =
      ⟨[Event.updateTimestamp, Event.doReplyTransfer 1 2, Event.deleteCallerCap 1,
        Event.receiveIPC 1 true, Event.schedule, Event.activateThread],
        Exc.none, false⟩ :=
  ⟨rfl, rfl, rfl, rfl,
    (C6_caller_cap_cleared_before_receive envBase true true true 5 2 rfl rfl).2 rfl rfl⟩

/-- Claim C8: a preempted decode makes `handleInvocation` return
`EXCEPTION_PREEMPTED` immediately — the decode call is its only and last
event, so no reply is sent — and `handleSyscall` then drains at most one
pending interrupt between the switch and the final
`schedule()`;`activateThread()`: exactly one `handleInterrupt` when an
IRQ is active, none otherwise. -/
theorem C8_preempted_drains_one_interrupt (env : Env) (isCall isBlocking : Bool)
    (sc : Syscall)
    (h1 : env.luSlotStatus = Exc.none) (h2 : env.extraCapsStatus = Exc.none)
    (h3 : env.decodeStatus = Exc.preempted) :
    (handleInvocation env isCall isBlocking =
      ⟨[Event.decodeInvocation env.msgLabel
          (if env.msgLength > n_msgRegisters && !env.ipcBufferPresent then n_msgRegisters
           else env.msgLength) env.luSlotCap isBlocking isCall],
        Exc.preempted, false⟩) ∧
    (env.checkBudget = true → (handleSyscallBody env sc).status = Exc.preempted →
      handleSyscall env sc =
        ⟨Event.updateTimestamp :: (handleSyscallBody env sc).events ++
          irqDrainEvents env ++ [Event.schedule, Event.activateThread],
          Exc.none, false⟩) ∧
    (irqDrainEvents env).length ≤ 1 ∧
    (∀ irq, env.activeIRQ = Option.some irq →
      irqDrainEvents env = [Event.handleInterrupt irq]) ∧
    (env.activeIRQ = Option.none → irqDrainEvents env = []) := by
  refine ⟨?_, fun hb hp => ?_, ?_, fun irq hirq => ?_, fun hn => ?_⟩
  · simp [handleInvocation, h1, h2, h3]
  · have hna := preempted_only_from_invocation env sc hp
    simp [handleSyscall, hb, hna, hp]
  · unfold irqDrainEvents
    cases env.activeIRQ <;> simp
  · simp [irqDrainEvents, hirq]
  · simp [irqDrainEvents, hn]

/-- Claim C8 witness: a preempted `SysCall` with one pending interrupt,
evaluated concretely: decode, one interrupt drain, then the scheduler
pair. -/
theorem C8_witness :
    (handleSyscallBody { envBase with
        decodeStatus := Exc.preempted
        activeIRQ := Option.some 4 } Syscall.SysCall).status = Exc.preempted ∧
    handleSyscall { envBase with
        decodeStatus := Exc.preempted
        activeIRQ := Option.some 4 } Syscall.SysCall =
      ⟨[Event.updateTimestamp,
        Event.decodeInvocation 0 2 (Cap.endpoint true true true 5) true true,
        Event.handleInterrupt 4, Event.schedule, Event.activateThread],
        Exc.none, false⟩ :=
  ⟨rfl, by
    have h := (C8_preempted_drains_one_interrupt { envBase with
        decodeStatus := Exc.preempted
        activeIRQ := Option.some 4 } true true Syscall.SysCall rfl rfl rfl).2.1 rfl rfl
    simpa using h⟩

/-- Claim C9: after a successful decode (neither preempted nor a syscall
error), a thread whose state is still Restart receives an empty success
reply exactly when the invocation is a call and is then set Running; a
thread in any other state gets no reply and no further state change —
the decode call is the last event. -/
theorem C9_restart_reply_then_running (env : Env) (isCall isBlocking : Bool)
    (h1 : env.luSlotStatus = Exc.none) (h2 : env.extraCapsStatus = Exc.none)
    (h3 : env.decodeStatus ≠ Exc.preempted) (h4 : env.decodeStatus ≠ Exc.syscallError) :
    (env.stateAfterDecode = ThreadState.Restart →
      handleInvocation env isCall isBlocking =
        ⟨[Event.decodeInvocation env.msgLabel
            (if env.msgLength > n_msgRegisters && !env.ipcBufferPresent then n_msgRegisters
             else env.msgLength) env.luSlotCap isBlocking isCall] ++
          (if isCall then [Event.replyFromKernel_success_empty env.curThread] else []) ++
          [Event.setThreadState env.curThread ThreadState.Running],
          Exc.none, false⟩) ∧
    (env.stateAfterDecode ≠ ThreadState.Restart →
      handleInvocation env isCall isBlocking =
        ⟨[Event.decodeInvocation env.msgLabel
            (if env.msgLength > n_msgRegisters && !env.ipcBufferPresent then n_msgRegisters
             else env.msgLength) env.luSlotCap isBlocking isCall],
          Exc.none, false⟩) := by
  refine ⟨fun h5 => ?_, fun h5 => ?_⟩ <;>
    simp [handleInvocation, h1, h2, h3, h4, h5]

/-- Claim C9 witness: a successful call decode leaving the thread in
Restart, evaluated concretely: empty success reply then Running. -/
theorem C9_witness :
    envBase.stateAfterDecode = ThreadState.Restart ∧
    handleInvocation envBase true true =
      ⟨[Event.decodeInvocation 0 2 (Cap.endpoint true true true 5) true true,
        Event.replyFromKernel_success_empty 1,
        Event.setThreadState 1 ThreadState.Running], Exc.none, false⟩ :=
  ⟨rfl, by
    have h := (C9_restart_reply_then_running envBase true true rfl rfl
      (by decide) (by decide)).1 rfl
    simpa using h⟩
